import Mathlib

/-!
Shallow embedding of `pkg/datapath/loader/compile.go` (BPF datapath
compilation: ISA-level detection, compiler flag assembly, the compile
invocation, and the per-category session orchestrators).

External effects (file creation, process spawn/exit, the stderr stream,
resource usage, the kernel capability probes, the global configuration)
are supplied by explicit "world" records; the functions below translate
the Go control flow over those inputs.
-/

namespace Loader

/-- Go `type OutputType string`. -/
abbrev OutputType := String

def outputObject : OutputType := "obj"
def outputAssembly : OutputType := "asm"
def outputSource : OutputType := "c"

def compiler : String := "clang"

def endpointPrefix : String := "bpf_lxc"
def endpointProg : String := endpointPrefix ++ "." ++ outputSource
def endpointObj : String := endpointPrefix ++ ".o"
def endpointObjDebug : String := endpointPrefix ++ ".dbg.o"
def endpointAsm : String := endpointPrefix ++ "." ++ outputAssembly

def hostEndpointPrefix : String := "bpf_host"
def hostEndpointProg : String := hostEndpointPrefix ++ "." ++ outputSource
def hostEndpointObj : String := hostEndpointPrefix ++ ".o"
def hostEndpointObjDebug : String := hostEndpointPrefix ++ ".dbg.o"
def hostEndpointAsm : String := hostEndpointPrefix ++ "." ++ outputAssembly

def networkPrefix : String := "bpf_network"
def networkProg : String := networkPrefix ++ "." ++ outputSource
def networkObj : String := networkPrefix ++ ".o"

def overlayPrefix : String := "bpf_overlay"
def overlayProg : String := overlayPrefix ++ "." ++ outputSource
def overlayObj : String := overlayPrefix ++ ".o"

/-- Go `progInfo`: a program to be compiled with the expected output format. -/
structure progInfo where
  Source : String
  Output : String
  OutputType : OutputType
  Options : List String := []
deriving DecidableEq, Repr

/-- Go `directoryInfo`: relevant directories for compilation and linking. -/
structure directoryInfo where
  Library : String
  Runtime : String
  State : String
  Output : String
deriving DecidableEq, Repr

/-- Models Go `path.Join` on two components: empty parts are dropped and the
rest joined with "/".  (Go additionally runs `path.Clean`; on the
already-clean inputs used by this package that is the identity.) -/
def pathJoin (a b : String) : String :=
  if a = "" then b else if b = "" then a else a ++ "/" ++ b

/-- Go `standardCFlags`; `numCPUs` stands for the runtime value
`common.GetNumPossibleCPUs(log)` interpolated into the `-D__NR_CPUS__` flag. -/
def standardCFlags (numCPUs : Nat) : List String :=
  ["-O2", "--target=bpf", "-std=gnu89",
   "-nostdinc", "-D__NR_CPUS__=" ++ toString numCPUs,
   "-Wall", "-Wextra", "-Werror", "-Wshadow",
   "-Wno-address-of-packed-member",
   "-Wno-unknown-warning-option",
   "-Wno-gnu-variable-sized-type-not-at-end",
   "-Wdeclaration-after-statement",
   "-Wimplicit-int-conversion",
   "-Wenum-conversion"]

def debugProgs : List progInfo :=
  [{ Source := endpointProg, Output := endpointObjDebug, OutputType := outputObject },
   { Source := endpointProg, Output := endpointAsm, OutputType := outputAssembly },
   { Source := endpointProg, Output := endpointProg, OutputType := outputSource }]

def debugHostProgs : List progInfo :=
  [{ Source := hostEndpointProg, Output := hostEndpointObjDebug, OutputType := outputObject },
   { Source := hostEndpointProg, Output := hostEndpointAsm, OutputType := outputAssembly },
   { Source := hostEndpointProg, Output := hostEndpointProg, OutputType := outputSource }]

def epProg : progInfo :=
  { Source := endpointProg, Output := endpointObj, OutputType := outputObject }

def hostEpProg : progInfo :=
  { Source := hostEndpointProg, Output := hostEndpointObj, OutputType := outputObject }

def networkTcProg : progInfo :=
  { Source := networkProg, Output := networkObj, OutputType := outputObject }

/-- The `switch prog.OutputType` in `compile`: `outputSource` adds `-E`;
`outputAssembly` adds `-S` and falls through to `outputObject`, which adds
`-g`; any other value adds nothing. -/
def outputTypeFlags (t : OutputType) : List String :=
  if t = outputSource then ["-E"]
  else if t = outputAssembly then ["-S", "-g"]
  else if t = outputObject then ["-g"]
  else []

/-- The `compileArgs` slice assembled at the top of `compile`.
`testIncludes` is the test-seam global of the same name; `cpu` is the value
returned by `GetBPFCPU()`. -/
def compileArgs (testIncludes : List String) (numCPUs : Nat) (cpu : String)
    (prog : progInfo) (dir : directoryInfo) : List String :=
  testIncludes ++
    ["-I" ++ pathJoin dir.Runtime "globals",
     "-I" ++ dir.State,
     "-I" ++ dir.Library,
     "-I" ++ pathJoin dir.Library "include"] ++
    outputTypeFlags prog.OutputType ++
    standardCFlags numCPUs ++
    ["-mcpu=" ++ cpu] ++
    prog.Options ++
    ["-c", pathJoin dir.Library prog.Source,
     "-o", "-"]

/-! ### ISA level detection (`GetBPFCPU`) -/

/-- Identifier of one kernel capability probe consulted by `GetBPFCPU`. -/
inductive Probe where
  | v3isa
  | redirectNeigh
  | v2isa
deriving DecidableEq, Repr

/-- The replies of the probe collaborator and the configuration read by
`GetBPFCPU`.  Each probe field is the Go error value of the corresponding
`probes.Have*` call: `none` is the `nil` (capability present) answer, and
`some msg` is any non-nil error, covering both "absent" and probe failure. -/
structure ProbeEnv where
  dryMode : Bool
  haveV3ISA : Option String
  haveRedirectNeigh : Option String
  haveV2ISA : Option String
deriving DecidableEq, Repr

/-- The body of the `probeCPUOnce.Do` closure in `GetBPFCPU`: starting from
the current value of the `nameBPFCPU` global, it returns the new value
together with the list of probes invoked, in order. -/
def probeCPUBody (env : ProbeEnv) (current : String) : String × List Probe :=
  if env.dryMode then (current, [])
  else
    if env.haveV3ISA.isNone then
      if env.haveRedirectNeigh.isNone then
        ("v3", [Probe.v3isa, Probe.redirectNeigh])
      else
        if env.haveV2ISA.isNone then
          ("v2", [Probe.v3isa, Probe.redirectNeigh, Probe.v2isa])
        else
          (current, [Probe.v3isa, Probe.redirectNeigh, Probe.v2isa])
    else
      if env.haveV2ISA.isNone then ("v2", [Probe.v3isa, Probe.v2isa])
      else (current, [Probe.v3isa, Probe.v2isa])

/-- The process-wide state behind `GetBPFCPU`: the `probeCPUOnce` latch and
the `nameBPFCPU` global. -/
structure CPUState where
  onceDone : Bool
  nameBPFCPU : String
deriving DecidableEq, Repr

/-- The state at process start: the `sync.Once` has not fired and
`nameBPFCPU` holds its default fallback `"v1"`. -/
def initialCPUState : CPUState := { onceDone := false, nameBPFCPU := "v1" }

/-- Go `GetBPFCPU`: runs the probing closure through the `sync.Once` latch
and returns the cached `nameBPFCPU`.  Also returns the updated state and the
probes invoked by this call. -/
def GetBPFCPU (s : CPUState) (env : ProbeEnv) : CPUState × String × List Probe :=
  if s.onceDone then (s, s.nameBPFCPU, [])
  else
    let r := probeCPUBody env s.nameBPFCPU
    ({ onceDone := true, nameBPFCPU := r.1 }, r.1, r.2)

/-! ### The compile invoker (`compile`) -/

/-- Go `pidFromProcess`: `none` stands for a nil `*os.Process`. -/
def pidFromProcess (proc : Option Nat) : String :=
  match proc with
  | none => "not-started"
  | some pid => toString pid

/-- Outcome of `compileCmd.Run()`.  `canceled` is the case where the
resulting error satisfies `errors.Is(err, context.Canceled)`. -/
inductive RunError where
  | canceled
  | other (msg : String)
deriving DecidableEq, Repr

/-- The errors `compile` can return: the raw `os.Create` error, or the
run error wrapped as `Failed to compile <artifact>: <cause>` (the `%w` verb
keeps the cause visible to `errors.Is`). -/
inductive CompileError where
  | ioErr (msg : String)
  | toolchain (artifact : String) (cause : RunError)
deriving DecidableEq, Repr

/-- `errors.Is(err, context.Canceled)` on a `CompileError`: true exactly for
a wrapped run error whose cause is the context cancellation. -/
def isCanceledErr : CompileError → Bool
  | CompileError.toolchain _ RunError.canceled => true
  | _ => false

inductive LogLevel where
  | debug
  | warn
  | error
deriving DecidableEq, Repr

structure LogEntry where
  level : LogLevel
  msg : String
deriving DecidableEq, Repr

/-- Entries at a severity that reports a failure (Warn or Error). -/
def isFailureLevel (e : LogEntry) : Bool :=
  match e.level with
  | LogLevel.debug => false
  | LogLevel.warn => true
  | LogLevel.error => true

def failureEntries (ls : List LogEntry) : List LogEntry :=
  ls.filter isFailureLevel

def isWarnLevel (e : LogEntry) : Bool :=
  match e.level with
  | LogLevel.warn => true
  | _ => false

def warnEntries (ls : List LogEntry) : List LogEntry :=
  ls.filter isWarnLevel

def isErrorLevel (e : LogEntry) : Bool :=
  match e.level with
  | LogLevel.error => true
  | _ => false

def errorEntries (ls : List LogEntry) : List LogEntry :=
  ls.filter isErrorLevel

/-- First `n` bytes of a stream (streams are modelled byte-per-char). -/
def takeBytes (n : Nat) (s : String) : String :=
  String.mk (s.toList.take n)

/-- `bufio.Scanner` with the default line splitter: tokens are the lines
without their newline; a final line without a newline is still returned;
empty input yields no tokens. -/
def scanLines (s : String) : List String :=
  if s = "" then []
  else if s.endsWith "\n" then (s.splitOn "\n").dropLast
  else s.splitOn "\n"

/-- The environment of one `compile` call: the globals it reads
(`testIncludes`, the CPU count baked into `standardCFlags`, the cached
`GetBPFCPU()` answer) and the outcomes of its external effects
(`os.Create`, `compileCmd.Run()`, the process's stderr stream, the
`Rusage.Maxrss` sample, the process id). -/
structure CompileWorld where
  testIncludes : List String
  numCPUs : Nat
  cpu : String
  createErr : Option String
  runErr : Option RunError
  stderr : String
  maxRSS : Int
  pid : Option Nat
deriving DecidableEq, Repr

/-- Everything observable about one `compile` call: the two return values,
whether the toolchain process was spawned, the files created and removed,
the full contents accumulated in the stderr buffer, the argument list
handed to the toolchain, and the log entries emitted. -/
structure CompileOutcome where
  resultPath : String
  resultErr : Option CompileError
  spawned : Bool
  created : List String
  removed : List String
  stderrCaptured : String
  args : List String
  logs : List LogEntry
deriving DecidableEq, Repr

/-- Go `compile`: builds the argument list, logs the launch, creates the
destination file (failure returns the I/O error with no process spawned),
runs the toolchain with stdout wired to the destination and stderr to an
in-memory buffer, and on failure wraps the error, logs an Error report
(pid, max RSS) unless the error is the context cancellation, then logs each
line of the first 1,000,000 bytes of the buffer at Warn.  On success it
returns the destination path, logging the peak RSS at Debug when
available.  No branch removes the destination file. -/
def compile (w : CompileWorld) (prog : progInfo) (dir : directoryInfo) : CompileOutcome :=
  let args := compileArgs w.testIncludes w.numCPUs w.cpu prog dir
  let launch : LogEntry := { level := LogLevel.debug, msg := "Launching compiler" }
  let outPath := pathJoin dir.Output prog.Output
  match w.createErr with
  | some e =>
    { resultPath := "", resultErr := some (CompileError.ioErr e), spawned := false,
      created := [], removed := [], stderrCaptured := "", args := args, logs := [launch] }
  | none =>
    match w.runErr with
    | some re =>
      let err := CompileError.toolchain prog.Output re
      let errLog : List LogEntry :=
        if isCanceledErr err then []
        else [{ level := LogLevel.error,
                msg := "compiler-pid=" ++ pidFromProcess w.pid ++
                  " max-rss=" ++ toString w.maxRSS ++
                  ": Failed to compile " ++ prog.Output }]
      let tail : List LogEntry :=
        (scanLines (takeBytes 1000000 w.stderr)).map
          (fun m => { level := LogLevel.warn, msg := m })
      { resultPath := "", resultErr := some err, spawned := true,
        created := [outPath], removed := [], stderrCaptured := w.stderr,
        args := args, logs := [launch] ++ errLog ++ tail }
    | none =>
      let rssLog : List LogEntry :=
        if w.maxRSS > 0 then
          [{ level := LogLevel.debug,
             msg := "Compilation had peak RSS of " ++ toString w.maxRSS ++ " bytes" }]
        else []
      { resultPath := outPath, resultErr := none, spawned := true,
        created := [outPath], removed := [], stderrCaptured := w.stderr,
        args := args, logs := [launch] ++ rssLog }

/-! ### Session orchestrators (`compileDatapath`, `compileNetwork`,
`compileOverlay`) -/

/-- An error returned by a session orchestrator: the failed
`clang --version` query, or an error propagated from `compile`. -/
inductive SessionError where
  | version (msg : String)
  | compileFailed (e : CompileError)
deriving DecidableEq, Repr

/-- Everything observable about one orchestrator call: the returned error
(`none` = success), the `progInfo`s for which `compile` was invoked, in
order, and the combined log stream (invoker entries followed by the
orchestrator's own entries, per invocation). -/
structure SessionOutcome where
  err : Option SessionError
  attempted : List progInfo
  logs : List LogEntry
deriving DecidableEq, Repr

/-- The `for _, p := range progs` loop in `compileDatapath`: compiles each
program in order and stops at the first failure, which is logged at Debug
level unless it is the context cancellation.  Returns the first error
(`none` if all succeeded), the programs attempted, and the log stream. -/
def compileSeq (worldFor : progInfo → CompileWorld) (dirs : directoryInfo) :
    List progInfo → Option CompileError × List progInfo × List LogEntry
  | [] => (none, [], [])
  | p :: rest =>
    let r := compile (worldFor p) p dirs
    match r.resultErr with
    | some e =>
      (some e, [p],
        r.logs ++
          (if isCanceledErr e then []
           else [{ level := LogLevel.debug, msg := "JoinEP: Failed to compile" }]))
    | none =>
      let rec' := compileSeq worldFor dirs rest
      (rec'.1, p :: rec'.2.1, r.logs ++ rec'.2.2)

/-- The environment of one `compileDatapath` session: the outcome of the
`clang --version` query, the `option.Config.Debug` flag, and the
`CompileWorld` for each program compiled in the session. -/
structure DatapathWorld where
  versionErr : Option String
  debug : Bool
  worldFor : progInfo → CompileWorld

/-- Go `compileDatapath`: queries the toolchain version (failure aborts the
session before any compile); when debug is enabled, compiles the fixed
debug triple (`debugHostProgs` when `isHost`, else `debugProgs`) in order,
aborting at the first failure; finally compiles the production program
(`hostEpProg` when `isHost`, else `epProg`), logging its failure at Warn
unless the error is the context cancellation. -/
def compileDatapath (dw : DatapathWorld) (dirs : directoryInfo) (isHost : Bool) :
    SessionOutcome :=
  match dw.versionErr with
  | some e => { err := some (SessionError.version e), attempted := [], logs := [] }
  | none =>
    let dbg :=
      if dw.debug then
        compileSeq dw.worldFor dirs (if isHost then debugHostProgs else debugProgs)
      else (none, [], [])
    match dbg.1 with
    | some e =>
      { err := some (SessionError.compileFailed e), attempted := dbg.2.1, logs := dbg.2.2 }
    | none =>
      let prog := if isHost then hostEpProg else epProg
      let r := compile (dw.worldFor prog) prog dirs
      match r.resultErr with
      | some e =>
        { err := some (SessionError.compileFailed e),
          attempted := dbg.2.1 ++ [prog],
          logs := dbg.2.2 ++ r.logs ++
            (if isCanceledErr e then []
             else [{ level := LogLevel.warn, msg := "JoinEP: Failed to compile" }]) }
      | none =>
        { err := none, attempted := dbg.2.1 ++ [prog], logs := dbg.2.2 ++ r.logs }

/-- Go `compileNetwork`: directories built from the configured BPF and
state directories, a version query, then one compile of `networkTcProg`
whose failure is logged at Warn unconditionally — with no
`errors.Is(err, context.Canceled)` guard. -/
def compileNetwork (bpfDir stateDir : String) (versionErr : Option String)
    (worldFor : progInfo → CompileWorld) : SessionOutcome :=
  let dirs : directoryInfo :=
    { Library := bpfDir, Runtime := stateDir, State := stateDir, Output := stateDir }
  match versionErr with
  | some e => { err := some (SessionError.version e), attempted := [], logs := [] }
  | none =>
    let r := compile (worldFor networkTcProg) networkTcProg dirs
    match r.resultErr with
    | some e =>
      { err := some (SessionError.compileFailed e), attempted := [networkTcProg],
        logs := r.logs ++ [{ level := LogLevel.warn, msg := "Failed to compile" }] }
    | none => { err := none, attempted := [networkTcProg], logs := r.logs }

/-- Go `compileOverlay`: like `compileNetwork` but for the overlay program
with caller-supplied options; its failure log is likewise at Warn with no
cancellation guard. -/
def compileOverlay (bpfDir stateDir : String) (opts : List String)
    (versionErr : Option String) (worldFor : progInfo → CompileWorld) : SessionOutcome :=
  let dirs : directoryInfo :=
    { Library := bpfDir, Runtime := stateDir, State := stateDir, Output := stateDir }
  let prog : progInfo :=
    { Source := overlayProg, Output := overlayObj, OutputType := outputObject,
      Options := opts }
  match versionErr with
  | some e => { err := some (SessionError.version e), attempted := [], logs := [] }
  | none =>
    let r := compile (worldFor prog) prog dirs
    match r.resultErr with
    | some e =>
      { err := some (SessionError.compileFailed e), attempted := [prog],
        logs := r.logs ++ [{ level := LogLevel.warn, msg := "Failed to compile" }] }
    | none => { err := none, attempted := [prog], logs := r.logs }

/-! ### Concrete sample inputs used by witnesses and counterexamples -/

/-- The directory layout of the spec's end-to-end example. -/
def dirsLRSO : directoryInfo :=
  { Library := "/L", Runtime := "/R", State := "/S", Output := "/O" }

/-- The program spec of the spec's end-to-end example. -/
def progX : progInfo :=
  { Source := "x.c", Output := "x.o", OutputType := outputObject }

/-- A world where every external step succeeds. -/
def okWorld : CompileWorld :=
  { testIncludes := [], numCPUs := 4, cpu := "v2", createErr := none,
    runErr := none, stderr := "", maxRSS := 0, pid := some 42 }

/-- A world where the toolchain exits non-zero with some stderr output. -/
def failWorld : CompileWorld :=
  { testIncludes := [], numCPUs := 4, cpu := "v2", createErr := none,
    runErr := some (RunError.other "exit status 1"), stderr := "boom\n",
    maxRSS := 0, pid := some 42 }

/-- A world where the destination file cannot be created. -/
def createFailWorld : CompileWorld :=
  { testIncludes := [], numCPUs := 4, cpu := "v2",
    createErr := some "permission denied", runErr := none, stderr := "",
    maxRSS := 0, pid := none }

/-- A world where the run fails because the caller cancelled the context,
with no stderr output. -/
def canceledWorld : CompileWorld :=
  { testIncludes := [], numCPUs := 4, cpu := "v2", createErr := none,
    runErr := some RunError.canceled, stderr := "", maxRSS := 0, pid := some 7 }

/-! ### Claims about ISA detection -/

/-- Claim C3: The first execution of `GetBPFCPU` returns `"v1"` in dry-run
mode, `"v3"` iff both the V3-ISA probe and the redirect-neighbor helper
probe answer nil, else `"v2"` iff the V2-ISA probe answers nil, else
`"v1"`; a probing probe list is empty exactly in dry-run mode, and probe
errors (the `some` replies) only ever demote the answer, never fail the
call. -/
theorem claim3_getBPFCPU_first_run (env : ProbeEnv) :
    (GetBPFCPU initialCPUState env).2.1 =
      (if env.dryMode then "v1"
       else if env.haveV3ISA.isNone && env.haveRedirectNeigh.isNone then "v3"
       else if env.haveV2ISA.isNone then "v2"
       else "v1")
    ∧ (env.dryMode = true ↔ (GetBPFCPU initialCPUState env).2.2 = []) := by
  obtain ⟨d, v3, nb, v2⟩ := env
  cases d <;> cases v3 <;> cases nb <;> cases v2 <;>
    simp [GetBPFCPU, initialCPUState, probeCPUBody]

/-- Claim C4: Two successive calls to `GetBPFCPU` in one process lifetime
return the same value even when the probe environments differ, and the
second call invokes no probe. -/
theorem claim4_getBPFCPU_idempotent (env1 env2 : ProbeEnv) :
    (GetBPFCPU (GetBPFCPU initialCPUState env1).1 env2).2.1 =
      (GetBPFCPU initialCPUState env1).2.1
    ∧ (GetBPFCPU (GetBPFCPU initialCPUState env1).1 env2).2.2 = [] := by
  simp [GetBPFCPU, initialCPUState]

/-! ### Claims about the compile invoker -/

/-- Claim C8: When creating the destination file fails, `compile` returns
that I/O error with an empty output path and never spawns the toolchain
process. -/
theorem claim8_create_failure_no_spawn (w : CompileWorld) (prog : progInfo)
    (dir : directoryInfo) (e : String) (h : w.createErr = some e) :
    (compile w prog dir).resultPath = ""
    ∧ (compile w prog dir).resultErr = some (CompileError.ioErr e)
    ∧ (compile w prog dir).spawned = false := by
  simp [compile, h]

/-- Witness for C8 at a concrete world whose `os.Create` fails. -/
theorem claim8_witness :
    (compile createFailWorld progX dirsLRSO).resultPath = ""
    ∧ (compile createFailWorld progX dirsLRSO).resultErr =
        some (CompileError.ioErr "permission denied")
    ∧ (compile createFailWorld progX dirsLRSO).spawned = false :=
  claim8_create_failure_no_spawn createFailWorld progX dirsLRSO "permission denied" rfl

/-- Claim C9: When the destination file was created but the toolchain run
fails, `compile` returns the empty output path together with the wrapped
error, while the destination file remains among the created files and
nothing is ever removed (no cleanup on the error path). -/
theorem claim9_no_cleanup_on_failure (w : CompileWorld) (prog : progInfo)
    (dir : directoryInfo) (re : RunError)
    (h1 : w.createErr = none) (h2 : w.runErr = some re) :
    (compile w prog dir).resultPath = ""
    ∧ (compile w prog dir).resultErr = some (CompileError.toolchain prog.Output re)
    ∧ pathJoin dir.Output prog.Output ∈ (compile w prog dir).created
    ∧ (compile w prog dir).removed = [] := by
  simp [compile, h1, h2]

/-- Witness for C9 at a concrete world whose toolchain run fails. -/
theorem claim9_witness :
    (compile failWorld progX dirsLRSO).resultPath = ""
    ∧ (compile failWorld progX dirsLRSO).resultErr =
        some (CompileError.toolchain "x.o" (RunError.other "exit status 1"))
    ∧ pathJoin "/O" "x.o" ∈ (compile failWorld progX dirsLRSO).created
    ∧ (compile failWorld progX dirsLRSO).removed = [] :=
  claim9_no_cleanup_on_failure failWorld progX dirsLRSO
    (RunError.other "exit status 1") rfl rfl

lemma pathJoin_eq (a b : String) (ha : a ≠ "") (hb : b ≠ "") :
    pathJoin a b = a ++ "/" ++ b := by
  simp [pathJoin, ha, hb]

lemma outputTypeFlags_obj : outputTypeFlags outputObject = ["-g"] := by decide

/-- Claim C1: For an Object-kind program spec with nonempty directory roots
and filenames, the flag sequence built by `compile` contains, in order,
`-I<R>/globals`, `-I<S>`, `-I<L>`, `-I<L>/include`, the fixed standard
flags, `-mcpu=<cpu>`, the caller-supplied options verbatim and in order,
then `-c <L>/<Source> -o -`; and on success `compile` returns the path
`<O>/<Output>`. -/
theorem claim1_object_flags_and_output (w : CompileWorld) (prog : progInfo)
    (dir : directoryInfo)
    (hk : prog.OutputType = outputObject)
    (hR : dir.Runtime ≠ "") (hL : dir.Library ≠ "") (hS : prog.Source ≠ "")
    (hO : dir.Output ≠ "") (hOut : prog.Output ≠ "")
    (hc : w.createErr = none) (hr : w.runErr = none) :
    List.Sublist
      (["-I" ++ (dir.Runtime ++ "/globals"),
        "-I" ++ dir.State,
        "-I" ++ dir.Library,
        "-I" ++ (dir.Library ++ "/include")] ++
       standardCFlags w.numCPUs ++
       ["-mcpu=" ++ w.cpu] ++
       prog.Options ++
       ["-c", dir.Library ++ "/" ++ prog.Source, "-o", "-"])
      (compile w prog dir).args
    ∧ (compile w prog dir).resultPath = dir.Output ++ "/" ++ prog.Output
    ∧ (compile w prog dir).resultErr = none := by
  have hargs : (compile w prog dir).args =
      compileArgs w.testIncludes w.numCPUs w.cpu prog dir := by
    simp [compile, hc, hr]
  refine ⟨?_, ?_, ?_⟩
  · rw [hargs, compileArgs, hk, outputTypeFlags_obj,
      pathJoin_eq dir.Runtime "globals" hR (by decide),
      pathJoin_eq dir.Library "include" hL (by decide),
      pathJoin_eq dir.Library prog.Source hL hS,
      String.append_assoc dir.Runtime "/" "globals",
      String.append_assoc dir.Library "/" "include",
      show ("/" ++ "globals" : String) = "/globals" from rfl,
      show ("/" ++ "include" : String) = "/include" from rfl]
    simp only [List.append_assoc, List.cons_append, List.nil_append, standardCFlags]
    refine List.Sublist.trans ?_ (List.sublist_append_right w.testIncludes _)
    exact List.Sublist.cons₂ _ (List.Sublist.cons₂ _ (List.Sublist.cons₂ _
      (List.Sublist.cons₂ _ (List.Sublist.cons _ (List.Sublist.refl _)))))
  · simp [compile, hc, hr, pathJoin_eq dir.Output prog.Output hO hOut]
  · simp [compile, hc, hr]

/-- Witness for C1 at the spec's end-to-end example. -/
theorem claim1_witness :
    List.Sublist
      (["-I" ++ (dirsLRSO.Runtime ++ "/globals"),
        "-I" ++ dirsLRSO.State,
        "-I" ++ dirsLRSO.Library,
        "-I" ++ (dirsLRSO.Library ++ "/include")] ++
       standardCFlags okWorld.numCPUs ++
       ["-mcpu=" ++ okWorld.cpu] ++
       progX.Options ++
       ["-c", dirsLRSO.Library ++ "/" ++ progX.Source, "-o", "-"])
      (compile okWorld progX dirsLRSO).args
    ∧ (compile okWorld progX dirsLRSO).resultPath =
        dirsLRSO.Output ++ "/" ++ progX.Output
    ∧ (compile okWorld progX dirsLRSO).resultErr = none :=
  claim1_object_flags_and_output okWorld progX dirsLRSO rfl
    (by decide) (by decide) (by decide) (by decide) (by decide) rfl rfl

lemma marker_ne_append (p s m : String) (h : ∀ l : List Char, ¬ (m.data = p.data ++ l)) :
    m ≠ p ++ s := by
  intro he
  exact h s.data (by rw [he, String.data_append])

/-- Claim C2, counterexample to the claim as stated: The claim says the
debug-symbol flag appears for Object kind only when debug output was
requested; but `epProg` is the production object spec — compiled in every
session, debug requested or not — and its built flag sequence contains
`-g` unconditionally. -/
theorem claim2_counterexample :
    epProg.OutputType = outputObject
    ∧ "-g" ∈ compileArgs [] 4 "v1" epProg dirsLRSO := by
  decide

/-- Claim C2 as amended: Provided the markers do not also occur among the
caller options or coincide with the source path, the flag sequence built
by `compile` contains `-E` exactly when the kind is PreprocessedSource,
`-S` exactly when the kind is Assembly, and `-g` for Assembly and Object
alike (never for PreprocessedSource) — the debug-symbol flag is
unconditional for object builds, not tied to a debug request. -/
theorem claim2_output_kind_markers (n : Nat) (cpu : String) (prog : progInfo)
    (dir : directoryInfo)
    (hk : prog.OutputType = outputObject ∨ prog.OutputType = outputAssembly ∨
      prog.OutputType = outputSource)
    (hoE : "-E" ∉ prog.Options) (hoS : "-S" ∉ prog.Options) (hoG : "-g" ∉ prog.Options)
    (hpE : pathJoin dir.Library prog.Source ≠ "-E")
    (hpS : pathJoin dir.Library prog.Source ≠ "-S")
    (hpG : pathJoin dir.Library prog.Source ≠ "-g") :
    ("-E" ∈ compileArgs [] n cpu prog dir ↔ prog.OutputType = outputSource)
    ∧ ("-S" ∈ compileArgs [] n cpu prog dir ↔ prog.OutputType = outputAssembly)
    ∧ ("-g" ∈ compileArgs [] n cpu prog dir ↔
        (prog.OutputType = outputObject ∨ prog.OutputType = outputAssembly)) := by
  have hIE : ∀ s : String, "-E" ≠ "-I" ++ s :=
    fun s => marker_ne_append "-I" s "-E" (by intro l hl; simp at hl)
  have hIS : ∀ s : String, "-S" ≠ "-I" ++ s :=
    fun s => marker_ne_append "-I" s "-S" (by intro l hl; simp at hl)
  have hIG : ∀ s : String, "-g" ≠ "-I" ++ s :=
    fun s => marker_ne_append "-I" s "-g" (by intro l hl; simp at hl)
  have hDE : ∀ s : String, "-E" ≠ "-D__NR_CPUS__=" ++ s :=
    fun s => marker_ne_append "-D__NR_CPUS__=" s "-E" (by intro l hl; simp at hl)
  have hDS : ∀ s : String, "-S" ≠ "-D__NR_CPUS__=" ++ s :=
    fun s => marker_ne_append "-D__NR_CPUS__=" s "-S" (by intro l hl; simp at hl)
  have hDG : ∀ s : String, "-g" ≠ "-D__NR_CPUS__=" ++ s :=
    fun s => marker_ne_append "-D__NR_CPUS__=" s "-g" (by intro l hl; simp at hl)
  have hME : ∀ s : String, "-E" ≠ "-mcpu=" ++ s :=
    fun s => marker_ne_append "-mcpu=" s "-E" (by intro l hl; simp at hl)
  have hMS : ∀ s : String, "-S" ≠ "-mcpu=" ++ s :=
    fun s => marker_ne_append "-mcpu=" s "-S" (by intro l hl; simp at hl)
  have hMG : ∀ s : String, "-g" ≠ "-mcpu=" ++ s :=
    fun s => marker_ne_append "-mcpu=" s "-g" (by intro l hl; simp at hl)
  rcases hk with hk | hk | hk <;>
    simp [compileArgs, standardCFlags, outputTypeFlags, outputObject, outputAssembly,
      outputSource, hk, hIE, hIS, hIG, hDE, hDS, hDG,
      hME, hMS, hMG, hoE, hoS, hoG, Ne.symm hpE, Ne.symm hpS, Ne.symm hpG,
      List.mem_append, List.mem_cons]

/-- Witness for the amended C2 at a concrete Object-kind spec. -/
theorem claim2_witness :
    ("-E" ∈ compileArgs [] 4 "v1" progX dirsLRSO ↔ progX.OutputType = outputSource)
    ∧ ("-S" ∈ compileArgs [] 4 "v1" progX dirsLRSO ↔ progX.OutputType = outputAssembly)
    ∧ ("-g" ∈ compileArgs [] 4 "v1" progX dirsLRSO ↔
        (progX.OutputType = outputObject ∨ progX.OutputType = outputAssembly)) :=
  claim2_output_kind_markers 4 "v1" progX dirsLRSO (Or.inl rfl)
    (by decide) (by decide) (by decide) (by decide) (by decide) (by decide)

/-! ### Claims about the session orchestrator -/

/-- Whether the compile of `p` in this session succeeds. -/
def progOk (worldFor : progInfo → CompileWorld) (dirs : directoryInfo) (p : progInfo) : Bool :=
  ((compile (worldFor p) p dirs).resultErr).isNone

lemma compileSeq_ok (worldFor : progInfo → CompileWorld) (dirs : directoryInfo) :
    ∀ ps : List progInfo, (∀ p ∈ ps, progOk worldFor dirs p = true) →
      (compileSeq worldFor dirs ps).1 = none ∧ (compileSeq worldFor dirs ps).2.1 = ps := by
  intro ps
  induction ps with
  | nil => intro _; simp [compileSeq]
  | cons p rest ih =>
    intro h
    have hp : (compile (worldFor p) p dirs).resultErr = none := by
      have := h p (by simp)
      simpa [progOk, Option.isNone_iff_eq_none] using this
    have hrest := ih (fun q hq => h q (by simp [hq]))
    simp [compileSeq, hp, hrest.1, hrest.2]

lemma compileSeq_fail (worldFor : progInfo → CompileWorld) (dirs : directoryInfo)
    (p : progInfo) (l₂ : List progInfo) (e : CompileError)
    (h2 : (compile (worldFor p) p dirs).resultErr = some e) :
    ∀ l₁ : List progInfo, (∀ q ∈ l₁, progOk worldFor dirs q = true) →
      (compileSeq worldFor dirs (l₁ ++ p :: l₂)).1 = some e
      ∧ (compileSeq worldFor dirs (l₁ ++ p :: l₂)).2.1 = l₁ ++ [p] := by
  intro l₁
  induction l₁ with
  | nil => intro _; simp [compileSeq, h2]
  | cons q rest ih =>
    intro h
    have hq : (compile (worldFor q) q dirs).resultErr = none := by
      have := h q (by simp)
      simpa [progOk, Option.isNone_iff_eq_none] using this
    have hrest := ih (fun r hr => h r (by simp [hr]))
    simp [compileSeq, hq, hrest.1, hrest.2]

lemma compileSeq_attempted_sublist (worldFor : progInfo → CompileWorld)
    (dirs : directoryInfo) :
    ∀ ps : List progInfo, List.Sublist (compileSeq worldFor dirs ps).2.1 ps := by
  intro ps
  induction ps with
  | nil => simp [compileSeq]
  | cons p rest ih =>
    by_cases hp : ∃ e, (compile (worldFor p) p dirs).resultErr = some e
    · obtain ⟨e, he⟩ := hp
      simp [compileSeq, he]
    · have he : (compile (worldFor p) p dirs).resultErr = none := by
        cases hx : (compile (worldFor p) p dirs).resultErr with
        | none => rfl
        | some e => exact absurd ⟨e, hx⟩ hp
      simp only [compileSeq, he]
      exact List.Sublist.cons₂ _ ih

lemma compileSeq_none_iff (worldFor : progInfo → CompileWorld) (dirs : directoryInfo) :
    ∀ ps : List progInfo, (compileSeq worldFor dirs ps).1 = none ↔
      ∀ p ∈ ps, progOk worldFor dirs p = true := by
  intro ps
  induction ps with
  | nil => simp [compileSeq]
  | cons p rest ih =>
    cases hx : (compile (worldFor p) p dirs).resultErr with
    | some e =>
      have h1 : (compileSeq worldFor dirs (p :: rest)).1 = some e := by
        simp [compileSeq, hx]
      rw [h1]
      constructor
      · intro h; exact Option.noConfusion h
      · intro h
        have hp := h p (by simp)
        simp [progOk, hx] at hp
    | none =>
      simp only [compileSeq, hx]
      constructor
      · intro h q hq
        rcases List.mem_cons.mp hq with hq | hq
        · subst hq; simp [progOk, hx]
        · exact (ih.mp h) q hq
      · intro h
        exact ih.mpr (fun q hq => h q (by simp [hq]))

/-- Claim C5: For every `compileDatapath` session: a failing version query
means no compile is attempted; with debug enabled, the first failing debug
artifact ends the session with that error, having attempted exactly the
debug programs up to and including it and never the production program;
and the production program is attempted exactly when the version check
succeeded and every debug program of the session's triple compiled (the
triple being vacuous when debug is off). -/
theorem claim5_session_state_machine (dw : DatapathWorld) (dirs : directoryInfo)
    (isHost : Bool) :
    (∀ e, dw.versionErr = some e →
      (compileDatapath dw dirs isHost).err = some (SessionError.version e)
      ∧ (compileDatapath dw dirs isHost).attempted = [])
    ∧ (∀ e l₁ p l₂, dw.versionErr = none → dw.debug = true →
        (if isHost then debugHostProgs else debugProgs) = l₁ ++ p :: l₂ →
        (∀ q ∈ l₁, progOk dw.worldFor dirs q = true) →
        (compile (dw.worldFor p) p dirs).resultErr = some e →
        (compileDatapath dw dirs isHost).err = some (SessionError.compileFailed e)
        ∧ (compileDatapath dw dirs isHost).attempted = l₁ ++ [p]
        ∧ (if isHost then hostEpProg else epProg) ∉ (compileDatapath dw dirs isHost).attempted)
    ∧ (dw.versionErr = none →
        ((if isHost then hostEpProg else epProg) ∈ (compileDatapath dw dirs isHost).attempted ↔
          (dw.debug = true → ∀ q ∈ (if isHost then debugHostProgs else debugProgs),
            progOk dw.worldFor dirs q = true))) := by
  have hprodnot : (if isHost then hostEpProg else epProg) ∉
      (if isHost then debugHostProgs else debugProgs) := by
    cases isHost <;> decide
  refine ⟨?_, ?_, ?_⟩
  · intro e he
    simp [compileDatapath, he]
  · intro e l₁ p l₂ hv hd hsplit hok hfail
    have hseq := compileSeq_fail dw.worldFor dirs p l₂ e hfail l₁ hok
    have hred : (compileDatapath dw dirs isHost).err = some (SessionError.compileFailed e)
        ∧ (compileDatapath dw dirs isHost).attempted = l₁ ++ [p] := by
      simp [compileDatapath, hv, hd, hsplit, hseq.1, hseq.2]
    refine ⟨hred.1, hred.2, ?_⟩
    rw [hred.2]
    intro hmem
    have hsub : List.Sublist (l₁ ++ [p]) (if isHost then debugHostProgs else debugProgs) := by
      rw [hsplit]
      exact List.Sublist.append (List.Sublist.refl l₁)
        (List.Sublist.cons₂ p (List.nil_sublist l₂))
    exact hprodnot (hsub.subset hmem)
  · intro hv
    cases hdbg : dw.debug with
    | false =>
      cases hres : (compile (dw.worldFor (if isHost then hostEpProg else epProg))
          (if isHost then hostEpProg else epProg) dirs).resultErr <;>
        simp [compileDatapath, hv, hdbg, hres, compileSeq]
    | true =>
      by_cases hall : ∀ q ∈ (if isHost then debugHostProgs else debugProgs),
          progOk dw.worldFor dirs q = true
      · have hseq := compileSeq_ok dw.worldFor dirs _ hall
        cases hres : (compile (dw.worldFor (if isHost then hostEpProg else epProg))
            (if isHost then hostEpProg else epProg) dirs).resultErr <;>
          · simp [compileDatapath, hv, hdbg, hseq.1, hseq.2, hres]
            exact hall
      · have hne : (compileSeq dw.worldFor dirs
            (if isHost then debugHostProgs else debugProgs)).1 ≠ none := fun hnone =>
          hall ((compileSeq_none_iff dw.worldFor dirs _).mp hnone)
        obtain ⟨e, he⟩ := Option.ne_none_iff_exists'.mp hne
        have hred : (compileDatapath dw dirs isHost).attempted =
            (compileSeq dw.worldFor dirs
              (if isHost then debugHostProgs else debugProgs)).2.1 := by
          simp [compileDatapath, hv, hdbg, he]
        rw [hred]
        constructor
        · intro hmem
          exact absurd ((compileSeq_attempted_sublist dw.worldFor dirs _).subset hmem) hprodnot
        · intro h
          exact absurd (h rfl) hall

/-- A session whose version query succeeds, with debug enabled, where every
compile fails with a plain toolchain error. -/
def failFirstDebugWorld : DatapathWorld :=
  { versionErr := none, debug := true, worldFor := fun _ => failWorld }

/-- Witness for C5: with debug enabled and the first debug artifact
failing, the session stops there and the production program is never
attempted. -/
theorem claim5_witness :
    (compileDatapath failFirstDebugWorld dirsLRSO false).err =
      some (SessionError.compileFailed
        (CompileError.toolchain endpointObjDebug (RunError.other "exit status 1")))
    ∧ (compileDatapath failFirstDebugWorld dirsLRSO false).attempted =
        [] ++ [{ Source := endpointProg, Output := endpointObjDebug,
                 OutputType := outputObject }]
    ∧ epProg ∉ (compileDatapath failFirstDebugWorld dirsLRSO false).attempted :=
  (claim5_session_state_machine failFirstDebugWorld dirsLRSO false).2.1
    (CompileError.toolchain endpointObjDebug (RunError.other "exit status 1"))
    [] { Source := endpointProg, Output := endpointObjDebug, OutputType := outputObject }
    [{ Source := endpointProg, Output := endpointAsm, OutputType := outputAssembly },
     { Source := endpointProg, Output := endpointProg, OutputType := outputSource }]
    rfl rfl (by decide) (by simp) (by decide)

/-! ### Claims about cancellation and diagnostic capture -/

/-- The `progInfo` value built inside `compileOverlay`. -/
def overlayProgInfo (opts : List String) : progInfo :=
  { Source := overlayProg, Output := overlayObj, OutputType := outputObject,
    Options := opts }

/-- Claim C6, counterexample to the claim as stated: The claim says a
cancellation failure produces no failure-level diagnostic entry in any
session orchestrator, network included; but `compileNetwork` logs its
`Failed to compile` entry at Warn with no cancellation guard, so a
cancelled network compile still emits one. -/
theorem claim6_counterexample :
    (compileNetwork "/bpf" "/st" none (fun _ => canceledWorld)).err =
      some (SessionError.compileFailed
        (CompileError.toolchain networkObj RunError.canceled))
    ∧ isCanceledErr (CompileError.toolchain networkObj RunError.canceled) = true
    ∧ { level := LogLevel.warn, msg := "Failed to compile" } ∈
        (compileNetwork "/bpf" "/st" none (fun _ => canceledWorld)).logs := by
  decide

/-- Claim C6 as amended: A cancelled compile returns an error that
`errors.Is` recognises as the cancellation; the invoker emits no
error-level report for it (though it still emits the Warn-level diagnostic
tail when stderr was nonempty); the endpoint / host-endpoint orchestrator
(`compileDatapath`) emits no failure-level entry for a cancelled
production or first-debug compile with empty stderr; but `compileNetwork`
and `compileOverlay` emit a Warn-level failure entry for any compile
failure, cancellation included. -/
theorem claim6_cancellation_logging :
    (∀ (w : CompileWorld) (prog : progInfo) (dir : directoryInfo),
      w.createErr = none → w.runErr = some RunError.canceled →
      (compile w prog dir).resultErr =
        some (CompileError.toolchain prog.Output RunError.canceled)
      ∧ isCanceledErr (CompileError.toolchain prog.Output RunError.canceled) = true
      ∧ errorEntries (compile w prog dir).logs = []
      ∧ warnEntries (compile w prog dir).logs =
          (scanLines (takeBytes 1000000 w.stderr)).map
            (fun m => { level := LogLevel.warn, msg := m }))
    ∧ (∀ (dw : DatapathWorld) (dirs : directoryInfo) (isHost : Bool),
        dw.versionErr = none → dw.debug = false →
        (dw.worldFor (if isHost then hostEpProg else epProg)).createErr = none →
        (dw.worldFor (if isHost then hostEpProg else epProg)).runErr =
          some RunError.canceled →
        (dw.worldFor (if isHost then hostEpProg else epProg)).stderr = "" →
        failureEntries (compileDatapath dw dirs isHost).logs = [])
    ∧ (∀ (dw : DatapathWorld) (dirs : directoryInfo) (isHost : Bool)
        (p : progInfo) (l₂ : List progInfo),
        dw.versionErr = none → dw.debug = true →
        (if isHost then debugHostProgs else debugProgs) = p :: l₂ →
        (dw.worldFor p).createErr = none →
        (dw.worldFor p).runErr = some RunError.canceled →
        (dw.worldFor p).stderr = "" →
        failureEntries (compileDatapath dw dirs isHost).logs = [])
    ∧ (∀ (bpf st : String) (worldFor : progInfo → CompileWorld) (re : RunError),
        (worldFor networkTcProg).createErr = none →
        (worldFor networkTcProg).runErr = some re →
        { level := LogLevel.warn, msg := "Failed to compile" } ∈
          (compileNetwork bpf st none worldFor).logs)
    ∧ (∀ (bpf st : String) (opts : List String)
        (worldFor : progInfo → CompileWorld) (re : RunError),
        (worldFor (overlayProgInfo opts)).createErr = none →
        (worldFor (overlayProgInfo opts)).runErr = some re →
        { level := LogLevel.warn, msg := "Failed to compile" } ∈
          (compileOverlay bpf st opts none worldFor).logs) := by
  refine ⟨?_, ?_, ?_, ?_, ?_⟩
  · intro w prog dir h1 h2
    refine ⟨by simp [compile, h1, h2], rfl, ?_, ?_⟩
    · simp [compile, h1, h2, isCanceledErr, errorEntries, List.filter_append,
        isErrorLevel]
    · simp [compile, h1, h2, isCanceledErr, warnEntries, List.filter_append,
        isWarnLevel]
  · intro dw dirs isHost hv hd hcr hrn hse
    simp [compileDatapath, hv, hd, compile, hcr, hrn, hse, isCanceledErr, takeBytes,
      scanLines, failureEntries, isFailureLevel, List.filter]
  · intro dw dirs isHost p l₂ hv hd hsplit hcr hrn hse
    simp [compileDatapath, hv, hd, hsplit, compileSeq, compile, hcr, hrn, hse,
      isCanceledErr, takeBytes, scanLines, failureEntries, isFailureLevel, List.filter]
  · intro bpf st worldFor re hcr hrn
    simp [compileNetwork, compile, hcr, hrn]
  · intro bpf st opts worldFor re hcr hrn
    simp only [overlayProgInfo] at hcr hrn
    simp [compileOverlay, compile, hcr, hrn]

/-- Witness for the amended C6: a cancelled compile at a concrete world —
the error is recognised as cancellation, no error-level entry is emitted,
and the Warn entries are exactly the (here empty) diagnostic tail. -/
theorem claim6_witness :
    (compile canceledWorld progX dirsLRSO).resultErr =
      some (CompileError.toolchain progX.Output RunError.canceled)
    ∧ isCanceledErr (CompileError.toolchain progX.Output RunError.canceled) = true
    ∧ errorEntries (compile canceledWorld progX dirsLRSO).logs = []
    ∧ warnEntries (compile canceledWorld progX dirsLRSO).logs =
        (scanLines (takeBytes 1000000 canceledWorld.stderr)).map
          (fun m => { level := LogLevel.warn, msg := m }) :=
  claim6_cancellation_logging.1 canceledWorld progX dirsLRSO rfl rfl

lemma length_mk (l : List Char) : (String.mk l).length = l.length := rfl

/-- A stderr stream one byte over the documented 1,000,000-byte bound. -/
def overMillionStderr : String := String.mk (List.replicate 1000001 'a')

/-- A failing run whose stderr exceeds the documented bound. -/
def overMillionWorld : CompileWorld :=
  { testIncludes := [], numCPUs := 4, cpu := "v2", createErr := none,
    runErr := some (RunError.other "exit status 1"), stderr := overMillionStderr,
    maxRSS := 0, pid := some 42 }

/-- Claim C7, counterexample to the claim as stated: The claim says the
capture of the toolchain's error stream retained for diagnostics is
bounded by 1,000,000 bytes; but the stderr buffer retains the full stream:
with 1,000,001 bytes of stderr the captured contents exceed the bound —
only the portion read back for logging is limited. -/
theorem claim7_counterexample :
    (compile overMillionWorld progX dirsLRSO).stderrCaptured.length = 1000001
    ∧ 1000000 < (compile overMillionWorld progX dirsLRSO).stderrCaptured.length := by
  have h1 : (compile overMillionWorld progX dirsLRSO).stderrCaptured =
      overMillionStderr := rfl
  have h2 : overMillionStderr.length = 1000001 := by
    rw [overMillionStderr, length_mk, List.length_replicate]
  exact ⟨by rw [h1, h2], by rw [h1, h2]; norm_num⟩

/-- Claim C7 as amended: On a failed run the stderr buffer retains the full
error stream, unbounded; only the portion read back for the failure log is
limited to the first 1,000,000 bytes — the Warn-level entries are the
lines of that bounded prefix, whose size never exceeds 1,000,000 bytes. -/
theorem claim7_bounded_diagnostic_tail (w : CompileWorld) (prog : progInfo)
    (dir : directoryInfo) (re : RunError)
    (h1 : w.createErr = none) (h2 : w.runErr = some re) :
    (compile w prog dir).stderrCaptured = w.stderr
    ∧ warnEntries (compile w prog dir).logs =
        (scanLines (takeBytes 1000000 w.stderr)).map
          (fun m => { level := LogLevel.warn, msg := m })
    ∧ (takeBytes 1000000 w.stderr).length ≤ 1000000 := by
  refine ⟨by simp [compile, h1, h2], ?_, ?_⟩
  · cases re <;>
      simp [compile, h1, h2, isCanceledErr, warnEntries, List.filter_append,
        isWarnLevel]
  · simp only [takeBytes, length_mk, List.length_take]
    exact min_le_left _ _

/-- Witness for the amended C7 at a concrete failing world. -/
theorem claim7_witness :
    (compile failWorld progX dirsLRSO).stderrCaptured = failWorld.stderr
    ∧ warnEntries (compile failWorld progX dirsLRSO).logs =
        (scanLines (takeBytes 1000000 failWorld.stderr)).map
          (fun m => { level := LogLevel.warn, msg := m })
    ∧ (takeBytes 1000000 failWorld.stderr).length ≤ 1000000 :=
  claim7_bounded_diagnostic_tail failWorld progX dirsLRSO
    (RunError.other "exit status 1") rfl rfl

/-! ### Claim about the debug program tables -/

/-- Claim C10: The third debug `progInfo` of the endpoint and host-endpoint
tables has an `Output` equal to its `Source`: `bpf_lxc.c` and `bpf_host.c`
respectively. -/
theorem claim10_preprocessed_names :
    (debugProgs.map (fun p => (p.Source, p.Output))).get? 2 =
      some ("bpf_lxc.c", "bpf_lxc.c")
    ∧ (debugHostProgs.map (fun p => (p.Source, p.Output))).get? 2 =
      some ("bpf_host.c", "bpf_host.c") := by
  decide

end Loader
